import Mathlib

/-!
Shallow embedding of the repoman repository (src/repoman/config.py,
src/repoman/github.py, src/repoman/manager.py) and proofs about the
frozen claims on its specification.

Modelling conventions:
* filesystem paths are component lists; the pathlib join operator appends
  components, and home expansion or filesystem resolution is environment
  state outside the embedding (no claim depends on it);
* pydantic model construction is a function returning Except: the error
  case stands for a raised ValidationError; by the default pydantic
  configuration, input keys that are not declared fields are silently
  dropped, and attribute access on an instance succeeds exactly for the
  declared fields (otherwise Python raises AttributeError);
* the async orchestration is embedded by noting that each per repository
  task computes its outcome from its own inputs alone (the gateway double
  is modelled as a pure record of operations that may raise), and that
  asyncio.gather with return_exceptions returns one slot per task in task
  creation order; the event loop interleaving therefore does not affect
  the value of any outcome list.
-/

namespace Repoman

/-- Decidable equality for Except values, used to settle concrete
evaluations of the embedded fallible functions. -/
instance {ε α : Type} [DecidableEq ε] [DecidableEq α] : DecidableEq (Except ε α) := fun a b =>
  match a, b with
  | .ok x, .ok y => decidable_of_iff (x = y) (by simp)
  | .error x, .error y => decidable_of_iff (x = y) (by simp)
  | .ok _, .error _ => isFalse fun h => Except.noConfusion h
  | .error _, .ok _ => isFalse fun h => Except.noConfusion h

/-- Filesystem path, as the list of its components. -/
abbrev Path := List String

/-- Python exceptions that the embedded code can raise or catch. -/
inductive PyError where
  | attributeError (msg : String)
  | valueError (msg : String)
  | updateError (msg : String)
  | cloneError (msg : String)
  | runtimeError (msg : String)
  | other (msg : String)
deriving Repr, DecidableEq

/-- The str rendering of an exception, as used by the manager when it
converts a caught exception into a result message. -/
def PyError.msg : PyError → String
  | .attributeError m => m
  | .valueError m => m
  | .updateError m => m
  | .cloneError m => m
  | .runtimeError m => m
  | .other m => m

/-- Characters admitted by the repository name pattern in config.py,
namely the class of letters, digits, dot, underscore and dash. -/
def repoNameChar (c : Char) : Bool :=
  c.isAlpha || c.isDigit || c = '.' || c = '_' || c = '-'

/-- A nonempty character sequence all of whose characters lie in the
repository name class: the language of the pattern body. -/
def charsPlus (l : List Char) : Bool :=
  !l.isEmpty && l.all repoNameChar

/-- Python re.match of the anchored pattern from config.py line 11: either
the whole string matches the character class body, or the dollar anchor
matches just before a single trailing newline, so a body match followed by
one final newline is also accepted by re.match. -/
def pyPatternMatch (s : String) : Bool :=
  charsPlus s.data || (s.data.getLast? = some '\n' && charsPlus s.data.dropLast)

/-- Models the pathlib basename Path(s).name on the slash free strings
that reach its call site in config.py line 27 (the slash check of line 25
has already passed): pathlib yields the empty string for the special
components dot and dot-dot, and the string itself otherwise. -/
def pathlibName (s : String) : String :=
  if s = "." ∨ s = ".." then "" else s

/-- config.py lines 22 to 33: the repository name validator, with its four
checks in source order (emptiness, slash, pathlib basename, regex). -/
def validateRepoName (name : String) : Except String String :=
  if name = "" then .error "Repository name must not be empty"
  else if '/' ∈ name.data then .error "Repository name must not contain slashes"
  else if ¬ pathlibName name = name then .error "Repository name must not contain path separators"
  else if ¬ pyPatternMatch name = true then
    .error "Repository name must contain only letters, numbers, dots, underscores, or dashes"
  else .ok name

/-- config.py lines 36 to 57: the RepoConfig pydantic model. Its declared
fields are exactly name and local_dir. -/
structure RepoConfig where
  name : String
  local_dir : Option Path := none
deriving Repr, DecidableEq

/-- Input data offered to RepoConfig validation. A remote_name key may be
present in the input mapping, but it is not a declared field of the class,
so the default pydantic configuration drops it silently. -/
structure RepoConfigInput where
  name : String
  local_dir : Option Path := none
  remote_name : Option String := none
deriving Repr, DecidableEq

/-- Pydantic construction of RepoConfig: the name validator runs, the
local_dir is kept (its home expansion is environment state outside the
embedding), and the undeclared remote_name key is dropped. -/
def mkRepoConfig (inp : RepoConfigInput) : Except String RepoConfig :=
  (validateRepoName inp.name).map fun n => { name := n, local_dir := inp.local_dir }

/-- Values an attribute access on an embedded pydantic instance can
produce. -/
inductive PyValue where
  | str (s : String)
  | int (n : Int)
  | path (p : Path)
  | optPath (p : Option Path)
deriving Repr, DecidableEq

/-- Attribute lookup on a RepoConfig instance: pydantic exposes exactly
the declared fields of the class and raises AttributeError otherwise;
remote_name is not declared in config.py. -/
def RepoConfig.getattr (r : RepoConfig) (attr : String) : Option PyValue :=
  if attr = "name" then some (.str r.name)
  else if attr = "local_dir" then some (.optPath r.local_dir)
  else none

/-- A repository entry inside an account: a bare string name or a
RepoConfig object, as in the annotation on config.py line 70. -/
abbrev RepoEntry := Sum String RepoConfig

/-- The local name of a repository entry, as computed at manager.py line
185 and config.py line 169. -/
def entryName : RepoEntry → String
  | .inl s => s
  | .inr r => r.name

/-- config.py lines 60 to 110: the AccountConfig pydantic model. -/
structure AccountConfig where
  name : String
  repos : List RepoEntry
  base_dir : Option Path := none
deriving Repr, DecidableEq

/-- Input shape of one repository entry before normalization: a string, a
mapping, or an already validated RepoConfig object. -/
inductive RepoEntryInput where
  | str (s : String)
  | dict (d : RepoConfigInput)
  | cfg (r : RepoConfig)
deriving Repr, DecidableEq

/-- config.py lines 87 to 100: normalize_repos converts mapping entries
through RepoConfig validation and passes other entries through. -/
def normalizeRepoEntry : RepoEntryInput → Except String RepoEntry
  | .str s => .ok (.inl s)
  | .dict d => (mkRepoConfig d).map .inr
  | .cfg r => .ok (.inr r)

/-- config.py lines 102 to 110: validate_repos rejects an empty list and
validates the bare string names. -/
def checkEntryName : RepoEntry → Except String Unit
  | .inl s => (validateRepoName s).map fun _ => ()
  | .inr _ => .ok ()

/-- config.py lines 102 to 110 continued: the body of validate_repos. -/
def validateRepoList (entries : List RepoEntry) : Except String (List RepoEntry) :=
  if entries.isEmpty then .error "Account must contain at least one repository"
  else (entries.mapM checkEntryName).map fun _ => entries

/-- Input data offered to AccountConfig validation. -/
structure AccountConfigInput where
  name : String
  repos : List RepoEntryInput
  base_dir : Option Path := none
deriving Repr, DecidableEq

/-- Pydantic construction of AccountConfig: name must not be empty or
blank, repository entries are normalized then validated. There is no
duplicate name check anywhere in the class. -/
def mkAccountConfig (inp : AccountConfigInput) : Except String AccountConfig := do
  if inp.name = "" ∨ inp.name.data.all Char.isWhitespace then
    throw "Account name must not be empty"
  let entries ← inp.repos.mapM normalizeRepoEntry
  let entries ← validateRepoList entries
  return { name := inp.name, repos := entries, base_dir := inp.base_dir }

/-- config.py lines 113 to 132: the GlobalConfig pydantic model. Its
declared fields are exactly base_dir and max_concurrent; there is no
timeout field. -/
structure GlobalConfig where
  base_dir : Path
  max_concurrent : Int
deriving Repr, DecidableEq

/-- The default of the base_dir field on config.py line 121; the field
default bypasses the expanding validator, so it stays as written. -/
def defaultBaseDir : Path := ["~", "code"]

/-- Input data offered to GlobalConfig validation. A timeout key may be
present in the input mapping, but it is not a declared field of the
class, so the default pydantic configuration drops it silently and checks
no bound for it. -/
structure GlobalConfigInput where
  base_dir : Option Path := none
  max_concurrent : Option Int := none
  timeout : Option Int := none
deriving Repr, DecidableEq

/-- Pydantic construction of GlobalConfig: base_dir defaults as declared,
max_concurrent defaults to 5 and must lie between 1 and 20 by the Field
bounds on config.py line 122. The timeout input key is ignored. -/
def mkGlobalConfig (inp : GlobalConfigInput) : Except String GlobalConfig :=
  let mc := inp.max_concurrent.getD 5
  if 1 ≤ mc ∧ mc ≤ 20 then
    .ok { base_dir := inp.base_dir.getD defaultBaseDir, max_concurrent := mc }
  else .error "max_concurrent must lie between 1 and 20"

/-- Attribute lookup on a GlobalConfig instance: pydantic exposes exactly
the declared fields base_dir and max_concurrent; any other attribute,
timeout included, raises AttributeError. -/
def GlobalConfig.getattr (g : GlobalConfig) (attr : String) : Option PyValue :=
  if attr = "base_dir" then some (.path g.base_dir)
  else if attr = "max_concurrent" then some (.int g.max_concurrent)
  else none

/-- config.py lines 135 to 144: the root RepomanConfig pydantic model. -/
structure RepomanConfig where
  global_config : GlobalConfig
  accounts : List AccountConfig
deriving Repr, DecidableEq

/-- Input data offered to RepomanConfig validation: the optional global
section and the account list. -/
structure RepomanConfigInput where
  global_config : Option GlobalConfigInput := none
  accounts : List AccountConfigInput := []
deriving Repr, DecidableEq

/-- Pydantic construction of RepomanConfig: the global section is
validated (or defaulted) and every account is validated. There is no
duplicate account name check anywhere in the model. -/
def mkRepomanConfig (inp : RepomanConfigInput) : Except String RepomanConfig := do
  let g ← mkGlobalConfig (inp.global_config.getD {})
  let accs ← inp.accounts.mapM mkAccountConfig
  return { global_config := g, accounts := accs }

/-- config.py lines 146 to 174: get_repo_path. The first account with a
matching name is selected (ValueError if none), a local_dir override on a
RepoConfig entry wins, and otherwise the account base_dir (or the global
one) is joined with the account name and the repository name. -/
def getRepoPath (cfg : RepomanConfig) (account : String) (repo : RepoEntry) : Except PyError Path :=
  match cfg.accounts.find? (fun a => a.name == account) with
  | none => .error (.valueError ("Account " ++ account ++ " not found in configuration"))
  | some ac =>
    let repoName := entryName repo
    match repo with
    | .inr r =>
      match r.local_dir with
      | some d => .ok d
      | none => .ok (ac.base_dir.getD cfg.global_config.base_dir ++ [ac.name, repoName])
    | .inl _ => .ok (ac.base_dir.getD cfg.global_config.base_dir ++ [ac.name, repoName])

/-- github.py lines 27 to 45: the GitHubClient and its constructor
state. -/
structure GitHubClient where
  use_ssh : Bool
  timeout : Int
deriving Repr, DecidableEq

/-- github.py lines 33 to 45: client construction checks that the timeout
lies between 30 and 3600 seconds. -/
def mkGitHubClient (use_ssh : Bool) (timeout : Int) : Except String GitHubClient :=
  if 30 ≤ timeout ∧ timeout ≤ 3600 then .ok { use_ssh := use_ssh, timeout := timeout }
  else .error "timeout must be between 30 and 3600 seconds"

/-- github.py lines 47 to 61: clone URL construction. -/
def getRepoUrl (c : GitHubClient) (account repo : String) : String :=
  if c.use_ssh then "git@github.com:" ++ account ++ "/" ++ repo ++ ".git"
  else "https://github.com/" ++ account ++ "/" ++ repo ++ ".git"

/-- Substring containment over character lists, used to embed the Python
substring operator on the pull output. -/
def listHasSub (needle : List Char) : List Char → Bool
  | [] => needle.isEmpty
  | c :: t => needle.isPrefixOf (c :: t) || listHasSub needle t

/-- Substring containment over strings. -/
def strHasSub (hay needle : String) : Bool :=
  listHasSub needle.data hay.data

/-- ASCII lowering of one character, embedding the effect of the Python
str.lower call on the pull output. -/
def lowerChar (c : Char) : Char :=
  if 'A' ≤ c ∧ c ≤ 'Z' then Char.ofNat (c.toNat + 32) else c

/-- Lowering of a whole string, as a string on the same characters. -/
def strLower (s : String) : String :=
  ⟨s.data.map lowerChar⟩

/-- github.py lines 167 to 169: the pull output classification of
update_repo. The pull is reported as a change unless the lowered stdout
contains the already up to date phrase, hyphenated or not. -/
def updateChanged (stdout : String) : Bool :=
  let lowered := strLower stdout
  !(strHasSub lowered "already up to date" || strHasSub lowered "already up-to-date")

/-- The per repository sync outcome classification of manager.py line
47. -/
inductive SyncStatus where
  | cloned
  | updated
  | upToDate
  | skipped
  | error
deriving Repr, DecidableEq

/-- manager.py lines 34 to 49: the SyncResult pydantic model. -/
structure SyncResult where
  account : String
  repo : String
  status : SyncStatus
  message : String := ""
  path : Path
deriving Repr, DecidableEq

/-- One invocation of a gateway operation, recorded so that theorems can
speak about which operations a sync attempt performed. -/
inductive GatewayCall where
  | repoExists (p : Path)
  | hasUncommittedChanges (p : Path)
  | updateRepo (p : Path)
  | cloneRepo (account repo : String) (dest : Path)
deriving Repr, DecidableEq

/-- Behaviour of the github client as the manager sees it: the four
operations the orchestrator invokes on self.github, each allowed to
raise. A test double substitutes arbitrary behaviour here; the embedding
treats the behaviour as a pure function of the call arguments. -/
structure Gateway where
  repoExists : Path → Except PyError Bool
  hasUncommittedChanges : Path → Except PyError Bool
  updateRepo : Path → Except PyError (Bool × String)
  cloneRepo : String → String → Path → Except PyError Unit

/-- An optional progress callback; a call receives a message and a level
and may itself raise. -/
abbrev Progress := Option (String → String → Except PyError Unit)

/-- The conditional progress invocation pattern of the manager: no
callback means no call. -/
def progCall (prog : Progress) (message level : String) : Except PyError Unit :=
  match prog with
  | none => .ok ()
  | some f => f message level

/-- Attribute access for the remote name of a repository entry, manager.py
line 186: for a bare string entry Python takes the None branch of the
conditional expression without any attribute access; for a RepoConfig
entry the access goes through the pydantic instance, which declares no
remote_name field, so it raises AttributeError. The middle arm is
unreachable because RepoConfig.getattr answers none on remote_name. -/
def entryRemoteName : RepoEntry → Except PyError (Option String)
  | .inl _ => .ok none
  | .inr r =>
    match r.getattr "remote_name" with
    | some (.str s) => .ok (some s)
    | some _ => .ok none
    | none => .error (.attributeError "RepoConfig object has no attribute remote_name")

/-- manager.py lines 193 to 217: the body of the try block of the single
repository sync, together with the list of gateway calls it performs. An
error in the first component stands for an exception escaping the try
body into the except handler; note that the progress notifications before
each return statement sit inside the try block, so their failures also
escape there and discard the computed result. -/
def syncTryBody (gw : Gateway) (prog : Progress) (accountName repoName repoSlug : String)
    (path : Path) : Except PyError SyncResult × List GatewayCall :=
  match gw.repoExists path with
  | .error e => (.error e, [.repoExists path])
  | .ok true =>
    match gw.hasUncommittedChanges path with
    | .error e => (.error e, [.repoExists path, .hasUncommittedChanges path])
    | .ok true =>
      let message := "Skipped " ++ accountName ++ "/" ++ repoName ++ " due to uncommitted changes"
      (match progCall prog message "warning" with
        | .error e => .error e
        | .ok () => .ok { account := accountName, repo := repoName, status := .skipped,
                          message := message, path := path },
        [.repoExists path, .hasUncommittedChanges path])
    | .ok false =>
      match progCall prog ("Updating " ++ accountName ++ "/" ++ repoName) "info" with
      | .error e => (.error e, [.repoExists path, .hasUncommittedChanges path])
      | .ok () =>
        match gw.updateRepo path with
        | .error e => (.error e, [.repoExists path, .hasUncommittedChanges path, .updateRepo path])
        | .ok (updated, message) =>
          (match progCall prog ("Updated " ++ accountName ++ "/" ++ repoName) "info" with
            | .error e => .error e
            | .ok () => .ok { account := accountName, repo := repoName,
                              status := if updated then .updated else .upToDate,
                              message := message, path := path },
            [.repoExists path, .hasUncommittedChanges path, .updateRepo path])
  | .ok false =>
    match gw.cloneRepo accountName repoSlug path with
    | .error e => (.error e, [.repoExists path, .cloneRepo accountName repoSlug path])
    | .ok () =>
      (match progCall prog ("Cloned " ++ accountName ++ "/" ++ repoName) "success" with
        | .error e => .error e
        | .ok () => .ok { account := accountName, repo := repoName, status := .cloned,
                          message := "", path := path },
        [.repoExists path, .cloneRepo accountName repoSlug path])

/-- manager.py lines 168 to 227: the single repository sync. The local
name, the remote attribute access, the path resolution and the first
progress notification all happen before the try block, so their failures
escape the function; an exception inside the try block is converted by
the except handler into a status error result, after a failure
notification whose own failure would escape in turn. An error in the
first component stands for an exception escaping the whole call. -/
def syncSingleRepo (gw : Gateway) (prog : Progress) (cfg : RepomanConfig)
    (account : AccountConfig) (repo : RepoEntry) :
    Except PyError SyncResult × List GatewayCall :=
  let repoName := entryName repo
  match entryRemoteName repo with
  | .error e => (.error e, [])
  | .ok repoRemote =>
    let repoSlug := repoRemote.getD repoName
    match getRepoPath cfg account.name repo with
    | .error e => (.error e, [])
    | .ok path =>
      match progCall prog ("Syncing " ++ account.name ++ "/" ++ repoName) "info" with
      | .error e => (.error e, [])
      | .ok () =>
        match syncTryBody gw prog account.name repoName repoSlug path with
        | (.ok r, calls) => (.ok r, calls)
        | (.error e, calls) =>
          match progCall prog ("Failed " ++ account.name ++ "/" ++ repoName ++ ": " ++ e.msg) "error" with
          | .error e2 => (.error e2, calls)
          | .ok () =>
            (.ok { account := account.name, repo := repoName, status := .error,
                   message := e.msg, path := path }, calls)

/-- The requested pairs of a full sync, in configuration enumeration
order, matching the nested loops of manager.py lines 81 to 83. -/
def configPairs (cfg : RepomanConfig) : List (AccountConfig × RepoEntry) :=
  cfg.accounts.flatMap fun a => a.repos.map fun r => (a, r)

/-- The conversion pass of manager.py lines 85 to 98 and 120 to 133: a
task that returned a result passes through, a task whose exception was
captured by gather becomes a status error result with the given account
and repo labels and the current directory as path. -/
def gatherConvert (account repo : String) : Except PyError SyncResult → SyncResult
  | .ok r => r
  | .error e => { account := account, repo := repo, status := .error,
                  message := e.msg, path := ["."] }

/-- manager.py lines 67 to 99: sync_all creates one task per configured
pair in enumeration order, gathers them preserving task order, and
converts captured exceptions with unknown labels. -/
def syncAll (gw : Gateway) (prog : Progress) (cfg : RepomanConfig) : List SyncResult :=
  let tasks := cfg.accounts.flatMap fun a =>
    a.repos.map fun r => (syncSingleRepo gw prog cfg a r).1
  tasks.map (gatherConvert "unknown" "unknown")

/-- manager.py lines 101 to 134: sync_account fails with ValueError when
the account is absent, and otherwise gathers one task per repository of
the account, converting captured exceptions with the account label. -/
def syncAccount (gw : Gateway) (prog : Progress) (cfg : RepomanConfig)
    (accountName : String) : Except PyError (List SyncResult) :=
  match cfg.accounts.find? (fun a => a.name == accountName) with
  | none => .error (.valueError ("Account " ++ accountName ++ " not found in configuration"))
  | some a =>
    .ok ((a.repos.map fun r => (syncSingleRepo gw prog cfg a r).1).map
      (gatherConvert accountName "unknown"))

/-- The repository entry lookup of manager.py lines 156 to 163. -/
def findRepoEntry (a : AccountConfig) (repoName : String) : Option RepoEntry :=
  a.repos.find? fun r => entryName r == repoName

/-- manager.py lines 136 to 166: sync_repo fails with ValueError when the
account or the repository is absent, and otherwise awaits the single
repository sync directly, with no conversion of escaping exceptions. -/
def syncRepo (gw : Gateway) (prog : Progress) (cfg : RepomanConfig)
    (accountName repoName : String) : Except PyError SyncResult :=
  match cfg.accounts.find? (fun a => a.name == accountName) with
  | none => .error (.valueError ("Account " ++ accountName ++ " not found in configuration"))
  | some a =>
    match findRepoEntry a repoName with
    | none => .error (.valueError ("Repository " ++ repoName ++ " not found in account " ++ accountName))
    | some r => (syncSingleRepo gw prog cfg a r).1

/-- manager.py lines 52 to 65: manager construction. With no client
supplied the default client is built from config.global_config.timeout,
an attribute the GlobalConfig model does not declare, so the access
raises AttributeError before the client constructor can run. -/
structure RepoManager where
  config : RepomanConfig
  github : GitHubClient
deriving Repr, DecidableEq

/-- Construction of RepoManager as written at manager.py line 64. -/
def mkRepoManager (config : RepomanConfig) (github_client : Option GitHubClient) :
    Except PyError RepoManager :=
  match github_client with
  | some c => .ok { config := config, github := c }
  | none =>
    match config.global_config.getattr "timeout" with
    | some (.int t) =>
      match mkGitHubClient true t with
      | .ok c => .ok { config := config, github := c }
      | .error m => .error (.valueError m)
    | some _ => .error (.other "unexpected attribute value for timeout")
    | none => .error (.attributeError "GlobalConfig object has no attribute timeout")

/-- A gateway double on which every repository is absent and every
operation succeeds; clone records nothing and update reports a change. -/
def gwAbsent : Gateway where
  repoExists := fun _ => .ok false
  hasUncommittedChanges := fun _ => .ok false
  updateRepo := fun _ => .ok (true, "updated")
  cloneRepo := fun _ _ _ => .ok ()

/-- A gateway double on which every repository is absent and clone
raises. -/
def gwCloneFail : Gateway where
  repoExists := fun _ => .ok false
  hasUncommittedChanges := fun _ => .ok false
  updateRepo := fun _ => .ok (true, "updated")
  cloneRepo := fun _ _ _ => .error (.cloneError "clone failed")

/-- A progress callback that raises on every notification. -/
def progRaising : Progress :=
  some fun _ _ => .error (.runtimeError "progress failed")

/-- Account with one bare string repository. -/
def acctString : AccountConfig where
  name := "acct"
  repos := [.inl "repo"]

/-- Configuration holding only acctString. -/
def cfgString : RepomanConfig where
  global_config := { base_dir := ["base"], max_concurrent := 2 }
  accounts := [acctString]

/-- Account with one structured repository entry (a RepoConfig object). -/
def acctStructured : AccountConfig where
  name := "acct"
  repos := [.inr { name := "local-name" }]

/-- Configuration holding only acctStructured. -/
def cfgStructured : RepomanConfig where
  global_config := { base_dir := ["base"], max_concurrent := 2 }
  accounts := [acctStructured]

/-- Account with one structured repository entry, for the C4 evaluation. -/
def acctTool : AccountConfig where
  name := "bob"
  repos := [.inr { name := "tool" }]

/-- Configuration holding only acctTool. -/
def cfgTool : RepomanConfig where
  global_config := { base_dir := ["code"], max_concurrent := 1 }
  accounts := [acctTool]

/-- Account carrying a base_dir override and a repository with a
local_dir override, for the C3 witness. -/
def acctOverride : AccountConfig where
  name := "acct"
  repos := [.inl "plain", .inr { name := "custom", local_dir := some ["override"] }]
  base_dir := some ["work"]

/-- Configuration holding only acctOverride. -/
def cfgOverride : RepomanConfig where
  global_config := { base_dir := ["base"], max_concurrent := 2 }
  accounts := [acctOverride]


/-! Helper lemmas shared by the claim theorems. -/

theorem charsPlus_ne_nil {l : List Char} (h : charsPlus l = true) : l ≠ [] := by
  intro he
  subst he
  simp [charsPlus] at h

theorem charsPlus_mem {l : List Char} (h : charsPlus l = true) {c : Char} (hc : c ∈ l) :
    repoNameChar c = true := by
  simp only [charsPlus, Bool.and_eq_true, List.all_eq_true] at h
  exact h.2 c hc

theorem ws_not_repoNameChar {c : Char} (h : c.isWhitespace = true) :
    repoNameChar c = false := by
  simp only [Char.isWhitespace, Bool.or_eq_true, decide_eq_true_eq] at h
  rcases h with ((h1 | h1) | h1) | h1 <;> subst h1 <;> decide

theorem pyPatternMatch_false_of_bad {s : String} {c : Char} (hc : c ∈ s.data)
    (h1 : repoNameChar c = false) (h2 : ¬ c = '\n') : pyPatternMatch s = false := by
  have hne : s.data ≠ [] := List.ne_nil_of_mem hc
  have hleft : charsPlus s.data = false := by
    cases hcp : charsPlus s.data with
    | false => rfl
    | true => rw [charsPlus_mem hcp hc] at h1; exact absurd h1 (by simp)
  unfold pyPatternMatch
  rw [hleft]
  simp only [Bool.false_or]
  by_cases hnl : s.data.getLast? = some '\n'
  · have hlast : s.data.getLast hne = '\n' := by
      have h3 := hnl.symm.trans (List.getLast?_eq_getLast s.data hne)
      exact (Option.some.inj h3).symm
    have hsplit : s.data.dropLast ++ [s.data.getLast hne] = s.data :=
      List.dropLast_append_getLast hne
    have hmem : c ∈ s.data.dropLast := by
      have hin := hsplit ▸ hc
      rcases List.mem_append.mp hin with hm | hm
      · exact hm
      · exact absurd (by simpa [hlast] using hm) h2
    have hcp : charsPlus s.data.dropLast = false := by
      cases hdp : charsPlus s.data.dropLast with
      | false => rfl
      | true => rw [charsPlus_mem hdp hmem] at h1; exact absurd h1 (by simp)
    simp [hcp]
  · simp [hnl]

theorem validateRepoName_error_of_no_match {s : String} (h : pyPatternMatch s = false) :
    ∃ m, validateRepoName s = .error m := by
  unfold validateRepoName
  by_cases h1 : s = ""
  · exact ⟨"Repository name must not be empty", by rw [if_pos h1]⟩
  rw [if_neg h1]
  by_cases h2 : '/' ∈ s.data
  · exact ⟨"Repository name must not contain slashes", by rw [if_pos h2]⟩
  rw [if_neg h2]
  by_cases h3 : pathlibName s = s
  · refine ⟨"Repository name must contain only letters, numbers, dots, underscores, or dashes", ?_⟩
    rw [if_neg (by simpa using h3), if_pos (by simp [h])]
  · exact ⟨"Repository name must not contain path separators", by rw [if_pos (by simpa using h3)]⟩

/-- C1 counterexample: the sync attempt does not follow the claimed state
machine for every configured repository. A structured repository entry
makes the attempt raise AttributeError on the undeclared remote_name field
instead of reaching the gateway; a progress callback that raises on the
initial notification makes the attempt raise instead of cloning; and a
gateway whose clone raises yields a status error outcome, not cloned, even
though the path does not exist. -/
theorem c1_counterexample :
    (syncSingleRepo gwAbsent none cfgStructured acctStructured (.inr { name := "local-name" })).1
      = .error (.attributeError "RepoConfig object has no attribute remote_name")
    ∧ (syncSingleRepo gwAbsent progRaising cfgString acctString (.inl "repo")).1
      = .error (.runtimeError "progress failed")
    ∧ (syncSingleRepo gwCloneFail none cfgString acctString (.inl "repo")).1
      = .ok { account := "acct", repo := "repo", status := .error, message := "clone failed",
              path := ["base", "acct", "repo"] } := by
  refine ⟨by decide, by decide, by decide⟩

/-- C4: the code raises instead of completing the sync of a structured
repository entry. The RepoConfig model declares no remote_name attribute,
so manager.py line 186 raises AttributeError before any gateway call, and
the sync of a structured entry fails rather than following the state
machine. -/
theorem c4_structured_entry_eval :
    RepoConfig.getattr { name := "tool" } "remote_name" = none
    ∧ (syncSingleRepo gwAbsent none cfgTool acctTool (.inr { name := "tool" })).1
        = .error (.attributeError "RepoConfig object has no attribute remote_name")
    ∧ (syncSingleRepo gwAbsent none cfgTool acctTool (.inr { name := "tool" })).2 = [] := by
  refine ⟨by decide, by decide, by decide⟩

/-- C5: configuration model construction accepts a duplicate account name
at the root and a duplicate repository name within one account, because
config.py contains no duplicate check; the claim (and the tests of the
repository) expect a validation error. -/
theorem c5_duplicates_eval :
    mkRepomanConfig { accounts := [
        { name := "acct", repos := [.str "repo1"] },
        { name := "acct", repos := [.str "repo2"] }] }
      = .ok { global_config := { base_dir := ["~", "code"], max_concurrent := 5 },
              accounts := [
                { name := "acct", repos := [.inl "repo1"] },
                { name := "acct", repos := [.inl "repo2"] }] }
    ∧ mkRepomanConfig { accounts := [
        { name := "acct", repos := [.str "repo1", .dict { name := "repo1" }] }] }
      = .ok { global_config := { base_dir := ["~", "code"], max_concurrent := 5 },
              accounts := [
                { name := "acct", repos := [.inl "repo1", .inr { name := "repo1" }] }] } := by
  refine ⟨by decide, by decide⟩

/-- C6: the max_concurrent bounds of the configuration model hold on and
off the endpoints, but a timeout outside the claimed bounds does not fail
construction: GlobalConfig declares no timeout field, the input key is
ignored, and the constructed instance has no timeout attribute at all. -/
theorem c6_bounds_eval :
    mkGlobalConfig { timeout := some 29 } = .ok { base_dir := ["~", "code"], max_concurrent := 5 }
    ∧ mkGlobalConfig { timeout := some 3601 } = .ok { base_dir := ["~", "code"], max_concurrent := 5 }
    ∧ mkGlobalConfig { max_concurrent := some 0 } = .error "max_concurrent must lie between 1 and 20"
    ∧ mkGlobalConfig { max_concurrent := some 21 } = .error "max_concurrent must lie between 1 and 20"
    ∧ mkGlobalConfig { max_concurrent := some 1 } = .ok { base_dir := ["~", "code"], max_concurrent := 1 }
    ∧ mkGlobalConfig { max_concurrent := some 20 } = .ok { base_dir := ["~", "code"], max_concurrent := 20 }
    ∧ GlobalConfig.getattr { base_dir := ["~", "code"], max_concurrent := 5 } "timeout" = none := by
  refine ⟨by decide, by decide, by decide, by decide, by decide, by decide, by decide⟩

/-- C7 counterexample: the dot-dot string matches the repository name
pattern yet construction fails on the path separator check, and the
string with a trailing newline contains whitespace yet construction
succeeds, because the Python dollar anchor also matches just before a
final newline. -/
theorem c7_counterexample :
    charsPlus (".." : String).data = true
    ∧ validateRepoName ".." = .error "Repository name must not contain path separators"
    ∧ ('\n').isWhitespace = true
    ∧ validateRepoName "ab\n" = .ok "ab\n" := by
  refine ⟨by decide, by decide, by decide, by decide⟩

/-- C8 counterexample: with both the account and the repository present,
sync_repo raises when the progress callback raises on the initial Syncing
notification, because that call sits before the try block of the single
repository sync; the claim says every such failure is returned as a
status error result. -/
theorem c8_counterexample :
    syncRepo gwAbsent progRaising cfgString "acct" "repo"
      = .error (.runtimeError "progress failed") := by
  decide

/-- C10: for every configuration, constructing the manager without a
client fails with AttributeError, because the default client would be
built from config.global_config.timeout and GlobalConfig declares no
timeout field; construction succeeds whenever a client is supplied. -/
theorem c10_manager_init (cfg : RepomanConfig) :
    mkRepoManager cfg none = .error (.attributeError "GlobalConfig object has no attribute timeout")
    ∧ ∀ c : GitHubClient, mkRepoManager cfg (some c) = .ok { config := cfg, github := c } :=
  ⟨rfl, fun _ => rfl⟩

/-- C1 amended: for every repository configured as a bare string name,
with a progress callback that never raises, one sync attempt follows the
per repository state machine. If the gateway reports the resolved path as
not existing and clone succeeds, clone is invoked and the status is
cloned; if the path exists and uncommitted changes are reported, the
status is skipped and update is never invoked; if the path exists with no
uncommitted changes and the update double mirrors the pull output
classification of the real client on output out, update is invoked and
the status is up-to-date exactly when out contains already up to date or
already up-to-date case-insensitively, and updated otherwise. -/
theorem c1_amended (gw : Gateway) (prog : Progress) (cfg : RepomanConfig)
    (account : AccountConfig) (rname : String) (path : Path)
    (hprog : ∀ m l, progCall prog m l = .ok ())
    (hpath : getRepoPath cfg account.name (.inl rname) = .ok path) :
    (gw.repoExists path = .ok false → gw.cloneRepo account.name rname path = .ok () →
      (syncSingleRepo gw prog cfg account (.inl rname)).1
        = .ok { account := account.name, repo := rname, status := .cloned, message := "",
                path := path }
      ∧ GatewayCall.cloneRepo account.name rname path
          ∈ (syncSingleRepo gw prog cfg account (.inl rname)).2)
    ∧ (gw.repoExists path = .ok true → gw.hasUncommittedChanges path = .ok true →
      (syncSingleRepo gw prog cfg account (.inl rname)).1
        = .ok { account := account.name, repo := rname, status := .skipped,
                message := "Skipped " ++ account.name ++ "/" ++ rname
                  ++ " due to uncommitted changes",
                path := path }
      ∧ ∀ p, GatewayCall.updateRepo p ∉ (syncSingleRepo gw prog cfg account (.inl rname)).2)
    ∧ (∀ out, gw.repoExists path = .ok true → gw.hasUncommittedChanges path = .ok false →
      gw.updateRepo path = .ok (updateChanged out, out) →
      (syncSingleRepo gw prog cfg account (.inl rname)).1
        = .ok { account := account.name, repo := rname,
                status := if updateChanged out then .updated else .upToDate,
                message := out, path := path }
      ∧ (updateChanged out = false ↔
          (strHasSub (strLower out) "already up to date" = true
            ∨ strHasSub (strLower out) "already up-to-date" = true))
      ∧ GatewayCall.updateRepo path ∈ (syncSingleRepo gw prog cfg account (.inl rname)).2) := by
  refine ⟨fun h1 h2 => ⟨?_, ?_⟩, fun h1 h2 => ⟨?_, fun p => ?_⟩,
    fun out h1 h2 h3 => ⟨?_, ?_, ?_⟩⟩
  · simp [syncSingleRepo, entryRemoteName, entryName, syncTryBody, hpath, hprog, h1, h2]
  · simp [syncSingleRepo, entryRemoteName, entryName, syncTryBody, hpath, hprog, h1, h2]
  · simp [syncSingleRepo, entryRemoteName, entryName, syncTryBody, hpath, hprog, h1, h2]
  · simp [syncSingleRepo, entryRemoteName, entryName, syncTryBody, hpath, hprog, h1, h2]
  · simp [syncSingleRepo, entryRemoteName, entryName, syncTryBody, hpath, hprog, h1, h2, h3]
  · have hu : updateChanged out
        = !(strHasSub (strLower out) "already up to date"
            || strHasSub (strLower out) "already up-to-date") := rfl
    rw [hu]
    cases ha : strHasSub (strLower out) "already up to date" <;>
      cases hb : strHasSub (strLower out) "already up-to-date" <;> simp [ha, hb]
  · simp [syncSingleRepo, entryRemoteName, entryName, syncTryBody, hpath, hprog, h1, h2, h3]

/-- C1 amended witness: the clone branch of the amended state machine at
a concrete configuration and gateway double. -/
theorem c1_amended_witness :
    (syncSingleRepo gwAbsent none cfgString acctString (.inl "repo")).1
      = .ok { account := "acct", repo := "repo", status := .cloned, message := "",
              path := ["base", "acct", "repo"] }
    ∧ GatewayCall.cloneRepo "acct" "repo" ["base", "acct", "repo"]
        ∈ (syncSingleRepo gwAbsent none cfgString acctString (.inl "repo")).2 :=
  (c1_amended gwAbsent none cfgString acctString "repo" ["base", "acct", "repo"]
    (fun _ _ => rfl) (by decide)).1 rfl rfl

/-- C2: sync_all returns exactly one result per requested pair of the
configuration, in enumeration order, each outcome a function of its own
pair alone; an exception escaping one task is converted to a status error
entry in place rather than propagating (syncAll is a total function into
a result list) or affecting other entries; and sync_account on an
existing account does the same for the repositories of that account. -/
theorem c2_batch_outcomes (gw : Gateway) (prog : Progress) (cfg : RepomanConfig) :
    syncAll gw prog cfg
      = (configPairs cfg).map
          (fun ar => gatherConvert "unknown" "unknown" (syncSingleRepo gw prog cfg ar.1 ar.2).1)
    ∧ (syncAll gw prog cfg).length = (cfg.accounts.map fun a => a.repos.length).sum
    ∧ (∀ a r e, (syncSingleRepo gw prog cfg a r).1 = .error e →
        gatherConvert "unknown" "unknown" (syncSingleRepo gw prog cfg a r).1
          = { account := "unknown", repo := "unknown", status := .error,
              message := e.msg, path := ["."] })
    ∧ (∀ an a, cfg.accounts.find? (fun x => x.name == an) = some a →
        syncAccount gw prog cfg an
          = .ok (a.repos.map fun r =>
              gatherConvert an "unknown" (syncSingleRepo gw prog cfg a r).1)) := by
  refine ⟨?_, ?_, ?_, ?_⟩
  · simp [syncAll, configPairs, List.map_flatMap, List.map_map]
    rfl
  · simp only [syncAll, List.length_map, List.length_flatMap]
    have hfun : (List.length ∘ fun a : AccountConfig =>
        List.map (fun r => (syncSingleRepo gw prog cfg a r).1) a.repos)
        = fun a : AccountConfig => a.repos.length := by
      funext a
      simp [Function.comp]
    rw [hfun]
  · intro a r e h
    simp [gatherConvert, h]
  · intro an a h
    simp [syncAccount, h, List.map_map]

/-- C2 witness: one concrete account sync with one repository yields the
one expected outcome. -/
theorem c2_batch_outcomes_witness :
    syncAccount gwAbsent none cfgString "acct"
      = .ok [{ account := "acct", repo := "repo", status := .cloned, message := "",
               path := ["base", "acct", "repo"] }] := by
  have h := (c2_batch_outcomes gwAbsent none cfgString).2.2.2 "acct" acctString (by decide)
  exact h.trans (by decide)

/-- C3: path resolution is a pure function of the configuration, account
name and repository entry (purity is definitional in the embedding, the
first conjunct recording it); a missing account fails with the not found
ValueError; with the account found, a local_dir override is returned
verbatim regardless of any base directory setting, and otherwise the
account base directory (or the global one) is joined with the account
name and the repository name. -/
theorem c3_path_resolution (cfg : RepomanConfig) (account : String) :
    (∀ repo : RepoEntry, getRepoPath cfg account repo = getRepoPath cfg account repo)
    ∧ (cfg.accounts.find? (fun a => a.name == account) = none →
        ∀ repo, getRepoPath cfg account repo
          = .error (.valueError ("Account " ++ account ++ " not found in configuration")))
    ∧ (∀ ac, cfg.accounts.find? (fun a => a.name == account) = some ac →
        ac.name = account
        ∧ (∀ (r : RepoConfig) (d : Path), r.local_dir = some d →
            getRepoPath cfg account (.inr r) = .ok d)
        ∧ (∀ r : RepoConfig, r.local_dir = none →
            getRepoPath cfg account (.inr r)
              = .ok (ac.base_dir.getD cfg.global_config.base_dir ++ [ac.name, r.name]))
        ∧ (∀ s : String, getRepoPath cfg account (.inl s)
            = .ok (ac.base_dir.getD cfg.global_config.base_dir ++ [ac.name, s]))) := by
  refine ⟨fun _ => rfl, ?_, ?_⟩
  · intro h repo
    simp [getRepoPath, h]
  · intro ac h
    have hname : ac.name = account := by
      have := List.find?_some h
      simpa using this
    refine ⟨hname, ?_, ?_, ?_⟩
    · intro r d hd
      simp [getRepoPath, h, hd]
    · intro r hd
      simp [getRepoPath, h, hd, entryName]
    · intro s
      simp [getRepoPath, h, entryName]

/-- C3 witness: the override and join branches at a concrete
configuration. -/
theorem c3_path_resolution_witness :
    getRepoPath cfgOverride "acct" (.inr { name := "custom", local_dir := some ["override"] })
      = .ok ["override"]
    ∧ getRepoPath cfgOverride "acct" (.inl "plain") = .ok ["work", "acct", "plain"] := by
  have h := (c3_path_resolution cfgOverride "acct").2.2 acctOverride (by decide)
  exact ⟨h.2.1 { name := "custom", local_dir := some ["override"] } ["override"] rfl,
    (h.2.2.2 "plain").trans (by decide)⟩

/-- C7 amended: construction of a repository entry succeeds for every
string matching the pattern except the special path components dot and
dot-dot, and also for a pattern-matching body followed by exactly one
trailing newline (the Python dollar anchor); it fails for every string
that is empty or contains a slash or an at-sign, and for every string
containing whitespace that is not of that trailing newline form. -/
theorem c7_amended (s : String) :
    (charsPlus s.data = true → ¬ s = "." → ¬ s = ".." → validateRepoName s = .ok s)
    ∧ (∀ t : String, s = t ++ "\n" → charsPlus t.data = true → validateRepoName s = .ok s)
    ∧ (s = "" → validateRepoName s = .error "Repository name must not be empty")
    ∧ ('/' ∈ s.data → ∃ m, validateRepoName s = .error m)
    ∧ ('@' ∈ s.data → ∃ m, validateRepoName s = .error m)
    ∧ ((∃ c ∈ s.data, c.isWhitespace = true) →
        ¬ (s.data.getLast? = some '\n' ∧ charsPlus s.data.dropLast = true) →
        ∃ m, validateRepoName s = .error m) := by
  refine ⟨?_, ?_, ?_, ?_, ?_, ?_⟩
  · intro h h1 h2
    have hne : ¬ s = "" := fun he => charsPlus_ne_nil h (by rw [he])
    have hsl : ¬ '/' ∈ s.data := fun hm => absurd (charsPlus_mem h hm) (by decide)
    have hpn : pathlibName s = s := by
      have hno : ¬ (s = "." ∨ s = "..") := by
        rintro (he | he)
        · exact h1 he
        · exact h2 he
      simp [pathlibName, hno]
    have hm : pyPatternMatch s = true := by simp [pyPatternMatch, h]
    simp [validateRepoName, hne, hsl, hpn, hm]
  · intro t hst hct
    have hdata : s.data = t.data ++ ['\n'] := by
      rw [hst]
      simp
    have hlast : s.data.getLast? = some '\n' := by
      rw [hdata]
      exact List.getLast?_concat _
    have hdrop : s.data.dropLast = t.data := by
      rw [hdata]
      exact List.dropLast_concat ..
    have hne : ¬ s = "" := fun he => by
      rw [he] at hlast
      exact absurd hlast (by decide)
    have h1 : ¬ s = "." := fun he => by
      rw [he] at hlast
      exact absurd hlast (by decide)
    have h2 : ¬ s = ".." := fun he => by
      rw [he] at hlast
      exact absurd hlast (by decide)
    have hsl : ¬ '/' ∈ s.data := by
      rw [hdata]
      intro hm
      rcases List.mem_append.mp hm with hm | hm
      · exact absurd (charsPlus_mem hct hm) (by decide)
      · simp at hm
    have hpn : pathlibName s = s := by
      have hno : ¬ (s = "." ∨ s = "..") := by
        rintro (he | he)
        · exact h1 he
        · exact h2 he
      simp [pathlibName, hno]
    have hm : pyPatternMatch s = true := by simp [pyPatternMatch, hlast, hdrop, hct]
    simp [validateRepoName, hne, hsl, hpn, hm]
  · intro he
    subst he
    decide
  · intro hm
    have hne : ¬ s = "" := fun he => by
      rw [he] at hm
      simp at hm
    exact ⟨"Repository name must not contain slashes", by simp [validateRepoName, hne, hm]⟩
  · intro hm
    exact validateRepoName_error_of_no_match
      (pyPatternMatch_false_of_bad hm (by decide) (by decide))
  · rintro ⟨c, hc, hw⟩ hnt
    have hpm : pyPatternMatch s = false := by
      unfold pyPatternMatch
      have hleft : charsPlus s.data = false := by
        cases hcp : charsPlus s.data with
        | false => rfl
        | true => exact absurd (charsPlus_mem hcp hc) (by simp [ws_not_repoNameChar hw])
      rw [hleft]
      simp only [Bool.false_or]
      by_cases hnl : s.data.getLast? = some '\n'
      · cases hdp : charsPlus s.data.dropLast with
        | false => simp [hdp]
        | true => exact absurd ⟨hnl, hdp⟩ hnt
      · simp [hnl]
    exact validateRepoName_error_of_no_match hpm

/-- C7 amended witness: a pattern-matching name is accepted. -/
theorem c7_amended_witness : validateRepoName "my-repo" = .ok "my-repo" :=
  (c7_amended "my-repo").1 (by decide) (by decide) (by decide)

/-- C8 amended: sync_repo fails with the not found ValueError before any
work when the account or the repository is absent; when both are present,
the repository entry is a bare string, and the progress callback never
raises, sync_repo never raises: it returns some result, and in particular
any exception escaping the try body of the sync is converted into a
status error result carrying that failure message. A failure raised by
the callback on the initial Syncing notification (or a structured entry
hitting the missing remote_name attribute) still propagates, as shown by
the counterexample. -/
theorem c8_amended (gw : Gateway) (prog : Progress) (cfg : RepomanConfig) (an rn : String) :
    (cfg.accounts.find? (fun a => a.name == an) = none →
      syncRepo gw prog cfg an rn
        = .error (.valueError ("Account " ++ an ++ " not found in configuration")))
    ∧ (∀ a, cfg.accounts.find? (fun a => a.name == an) = some a →
        (findRepoEntry a rn = none →
          syncRepo gw prog cfg an rn
            = .error (.valueError ("Repository " ++ rn ++ " not found in account " ++ an)))
        ∧ (∀ s, findRepoEntry a rn = some (.inl s) →
            (∀ m l, progCall prog m l = .ok ()) →
            ∃ res, syncRepo gw prog cfg an rn = .ok res)
        ∧ (∀ s path e calls, findRepoEntry a rn = some (.inl s) →
            (∀ m l, progCall prog m l = .ok ()) →
            getRepoPath cfg a.name (Sum.inl s) = .ok path →
            syncTryBody gw prog a.name s s path = (.error e, calls) →
            syncRepo gw prog cfg an rn
              = .ok { account := a.name, repo := s, status := .error, message := e.msg,
                      path := path })) := by
  refine ⟨?_, ?_⟩
  · intro h
    simp [syncRepo, h]
  · intro a h
    refine ⟨?_, ?_, ?_⟩
    · intro hr
      simp [syncRepo, h, hr]
    · intro s hs hp
      have hmem : a ∈ cfg.accounts := List.mem_of_find?_eq_some h
      have hsome : (cfg.accounts.find? fun x => x.name == a.name).isSome :=
        List.find?_isSome.mpr ⟨a, hmem, by simp⟩
      obtain ⟨ac, hac⟩ := Option.isSome_iff_exists.mp hsome
      have hpath : getRepoPath cfg a.name (Sum.inl s)
          = .ok (ac.base_dir.getD cfg.global_config.base_dir ++ [ac.name, s]) := by
        simp [getRepoPath, hac, entryName]
      have hsr : syncRepo gw prog cfg an rn = (syncSingleRepo gw prog cfg a (Sum.inl s)).1 := by
        simp [syncRepo, h, hs]
      rw [hsr]
      rcases htb : syncTryBody gw prog a.name s s
          (ac.base_dir.getD cfg.global_config.base_dir ++ [ac.name, s]) with ⟨res, calls⟩
      cases res with
      | ok r =>
        exact ⟨r, by simp [syncSingleRepo, entryRemoteName, entryName, hpath, hp, htb]⟩
      | error e =>
        refine ⟨{ account := a.name, repo := s, status := .error, message := e.msg,
                  path := ac.base_dir.getD cfg.global_config.base_dir ++ [ac.name, s] }, ?_⟩
        simp [syncSingleRepo, entryRemoteName, entryName, hpath, hp, htb]
    · intro s path e calls hs hp hpath htb
      have hsr : syncRepo gw prog cfg an rn = (syncSingleRepo gw prog cfg a (Sum.inl s)).1 := by
        simp [syncRepo, h, hs]
      rw [hsr]
      simp [syncSingleRepo, entryRemoteName, entryName, hpath, hp, htb]

/-- C8 amended witness: a concrete present account and repository with no
progress callback yields a returned result. -/
theorem c8_amended_witness : ∃ res, syncRepo gwAbsent none cfgString "acct" "repo" = .ok res :=
  ((c8_amended gwAbsent none cfgString "acct" "repo").2 acctString (by decide)).2.1 "repo"
    (by decide) (fun _ _ => rfl)

end Repoman
